import Mathlib

/-!
Shallow embedding of the dictation daemon
(`modules/nixos/scripts/dictation/daemon.py`) and of its command-line client
(`modules/nixos/scripts/dictation/client.py`), together with proofs about the
command state machine, the audio-ingestion path, the transcription scheduler
and the status publisher.

Audio samples are 16-bit PCM integers converted to normalized floating-point
values; the conversion `x / 32768.0` is exact in binary floating point for
16-bit inputs, so samples are modelled as rationals.  `CHUNK_DURATION = 0.5`
and the threshold `2.0` are likewise exactly representable, and the product
`len(queue) * 0.5` is exact for any realistic queue length, so the threshold
comparison is modelled over `ℚ` without loss.
-/

/-- A raw audio block as delivered by the capture backend: 16-bit PCM samples. -/
abbrev RawBlock := List Int

/-- A normalized floating-point sample, modelled as a rational. -/
abbrev Sample := ℚ

/-- A converted audio block. -/
abbrev Block := List Sample

/-- The constant `CHUNK_DURATION = 0.5` seconds. -/
def CHUNK_DURATION : ℚ := 1 / 2

/-- The status dict `self.status`: `active`, `text` and `error` fields. -/
structure Status where
  active : Bool
  text : String
  error : Option String
deriving DecidableEq, Repr

/-- The mutable daemon fields the specification's claims concern:
`self.active` (recording flag), `self.audio_queue` (pending audio) and
`self.status` (last published text / error live in `status.text` /
`status.error`). -/
structure DaemonState where
  active : Bool
  audio_queue : List Block
  status : Status
deriving DecidableEq, Repr

/-- Model of `DictationDaemon.update_status`: each of the three status fields is
overwritten exactly when the corresponding argument is supplied
(`if active is not None: ...` and so on); the whole three-field dict is then
serialized to the status file. -/
def update_status (activeArg : Option Bool) (textArg : Option String)
    (errorArg : Option String) (st : Status) : Status :=
  let st1 := match activeArg with
    | some a => { st with active := a }
    | none => st
  let st2 := match textArg with
    | some t => { st1 with text := t }
    | none => st1
  match errorArg with
  | some e => { st2 with error := some e }
  | none => st2

/-- One sample of
`np.frombuffer(in_data, dtype=np.int16).astype(np.float32) / 32768.0`. -/
def int16ToFloat (x : Int) : Sample := (x : ℚ) / 32768

/-- Conversion of a raw block to normalized floating-point samples. -/
def convertBlock (raw : RawBlock) : Block := raw.map int16ToFloat

/-- Model of `DictationDaemon.audio_callback`: while `self.active` the converted block
is appended to `self.audio_queue`; otherwise the block is discarded. -/
def audio_callback (in_data : RawBlock) (s : DaemonState) : DaemonState :=
  if s.active then
    { s with audio_queue := s.audio_queue ++ [convertBlock in_data] }
  else
    s

/-- Delivery of a sequence of blocks by the capture backend, in order. -/
def deliverBlocks (blocks : List RawBlock) (s : DaemonState) : DaemonState :=
  blocks.foldl (fun st b => audio_callback b st) s

/-- The three recognized control commands. -/
inductive Command
  | START
  | STOP
  | TOGGLE
deriving DecidableEq, Repr

/-- Python's `str.strip()`: remove leading and trailing whitespace, modelled
over the character list. -/
def pyStrip (data : String) : String :=
  ⟨((data.data.dropWhile Char.isWhitespace).reverse.dropWhile
      Char.isWhitespace).reverse⟩

/-- Python's `str.upper()`, modelled over the character list. -/
def pyUpper (data : String) : String :=
  ⟨data.data.map Char.toUpper⟩

/-- The daemon reads `conn.recv(1024).decode().strip()` and compares the
stripped token exactly (case-sensitively) against the three uppercase
command words. -/
def parseCommand (data : String) : Option Command :=
  let d := pyStrip data
  if d = "START" then some Command.START
  else if d = "STOP" then some Command.STOP
  else if d = "TOGGLE" then some Command.TOGGLE
  else none

/-- The bodies of the three recognized branches of the accept loop in
`DictationDaemon.run`: START sets `active`, clears the queue and publishes;
STOP clears `active` and publishes, leaving the queue as-is; TOGGLE inverts
`active`, clears the queue and publishes the new value. -/
def applyCommand (c : Command) (s : DaemonState) : DaemonState :=
  match c with
  | Command.START =>
      { active := true, audio_queue := [],
        status := update_status (some true) none none s.status }
  | Command.STOP =>
      { active := false, audio_queue := s.audio_queue,
        status := update_status (some false) none none s.status }
  | Command.TOGGLE =>
      let newActive := !s.active
      { active := newActive, audio_queue := [],
        status := update_status (some newActive) none none s.status }

/-- A sequence of commands applied in order. -/
def applyCommands (cs : List Command) (s : DaemonState) : DaemonState :=
  cs.foldl (fun st c => applyCommand c st) s

/-- One accepted connection of the command loop: a recognized token mutates
the state and publishes exactly one status snapshot (the `update_status`
call); an unrecognized token falls through all three branches, changing
nothing and publishing nothing.  The second component lists the snapshots
published while handling this connection. -/
def handleSocketData (data : String) (s : DaemonState) : DaemonState × List Status :=
  match parseCommand data with
  | some c =>
      let s1 := applyCommand c s
      (s1, [s1.status])
  | none => (s, [])

/-- Model of `DictationDaemon.type_text`: empty text is not injected
(`if not text: return`); otherwise the text is handed to `wtype`.  The
result is the argument passed to the keystroke injector, if any. -/
def type_text (text : String) : Option String :=
  if text = "" then none else some text

/-- Observable outcome of one iteration of the transcription loop:
the daemon state afterwards, the audio batch handed to the engine (if any),
the text handed to the keystroke injector (if any), and whether the
iteration took the `time.sleep(0.1)` branch. -/
structure IterResult where
  state : DaemonState
  invoked : Option (List Sample)
  typed : Option String
  slept : Bool
deriving DecidableEq, Repr

/-- One iteration of the `while` body of `DictationDaemon.transcription_loop`.
The speech engine is a parameter returning the texts of its recognized
segments in order, or an error.  There is no `try`/`except` around the
`self.model.transcribe` call, so an exception it raises escapes the loop;
this is modelled as `Except.error`, carrying the daemon state at the moment
of the raise (the queue was already cleared before the call). -/
def transcription_iteration (engine : List Sample → Except String (List String))
    (s : DaemonState) : Except (String × DaemonState) IterResult :=
  if s.active ∧ s.audio_queue ≠ [] then
    if (s.audio_queue.length : ℚ) * CHUNK_DURATION ≥ 2 then
      let audio_data := s.audio_queue.flatten
      let s1 : DaemonState := { s with audio_queue := [] }
      match engine audio_data with
      | Except.error e => Except.error (e, s1)
      | Except.ok segs =>
          let text_segment := pyStrip (String.join segs)
          if text_segment = "" then
            Except.ok { state := s1, invoked := some audio_data,
                        typed := none, slept := false }
          else
            Except.ok { state := { s1 with
                          status := update_status none (some text_segment) none s1.status },
                        invoked := some audio_data,
                        typed := type_text (text_segment ++ " "),
                        slept := false }
    else
      Except.ok { state := s, invoked := none, typed := none, slept := false }
  else
    Except.ok { state := s, invoked := none, typed := none, slept := true }

/-- The dict `self.status` as initialized in `DictationDaemon.__init__`. -/
def initStatus : Status := { active := false, text := "", error := none }

/-- The daemon state right after `__init__` (which ends with
`update_status(active=False, text="")`). -/
def initialState : DaemonState :=
  { active := false, audio_queue := [],
    status := update_status (some false) (some "") none initStatus }

/-- Fine-grained operations on the shared `audio_queue`, at the granularity
at which the interpreter interleaves the capture callback's thread with the
transcription thread: the callback's `append` is one step, while the
scheduler's drain is two separate steps — `np.concatenate(list(...))` and
`audio_queue.clear()` — with no lock held around the pair. -/
inductive AudioOp
  | append (b : Block)
  | drainConcat
  | drainClear
deriving Repr

/-- The queue together with the scheduler's local `audio_data` batch. -/
structure RaceState where
  queue : List Block
  batch : Option (List Sample)
deriving DecidableEq, Repr

/-- Effect of a single interleaved operation. -/
def stepOp (st : RaceState) : AudioOp → RaceState
  | AudioOp.append b => { st with queue := st.queue ++ [b] }
  | AudioOp.drainConcat => { st with batch := some st.queue.flatten }
  | AudioOp.drainClear => { st with queue := [] }

/-- A whole interleaving of queue operations. -/
def runOps (ops : List AudioOp) (st : RaceState) : RaceState :=
  ops.foldl stepOp st

/-- Result of the client's connect-and-send attempt. -/
inductive ConnResult
  | ok
  | failed (msg : String)
deriving Repr

/-- Observable outcome of running the client: exit code and the messages
written to standard output and to the error stream. -/
structure ClientOutcome where
  exitCode : Nat
  stdoutMsg : Option String
  stderrMsg : Option String
deriving DecidableEq, Repr

/-- Model of `client.send_command` as invoked from `__main__`: on success the script
falls off the end and exits 0; on any exception from connect/send the
handler runs `print(f"Failed to connect to daemon: ...")` — a bare `print`,
which writes to standard output — and exits 1. -/
def send_command (conn : ConnResult) : ClientOutcome :=
  match conn with
  | ConnResult.ok => { exitCode := 0, stdoutMsg := none, stderrMsg := none }
  | ConnResult.failed e =>
      { exitCode := 1,
        stdoutMsg := some ("Failed to connect to daemon: " ++ e),
        stderrMsg := none }

/-- The token the client actually sends: `sys.argv[1].upper()`. -/
def clientSentToken (arg : String) : String := pyUpper arg

/-- A sequence of `update_status` calls applied in order (each triple gives
the `active`, `text`, `error` arguments of one call). -/
def applyUpdates (us : List (Option Bool × Option String × Option String))
    (st : Status) : Status :=
  us.foldl (fun s u => update_status u.1 u.2.1 u.2.2 s) st

/-- Expected `recording` value per the table in spec section 4.3 (written
from the specification's words, to be compared with `applyCommand`). -/
def specTableRecording (c : Command) (prev : Bool) : Bool :=
  match c with
  | Command.START => true
  | Command.STOP => false
  | Command.TOGGLE => !prev

/-- A daemon state with recording active and four pending converted blocks
(2.0 s of audio): the scheduler's threshold is met. -/
def sReady : DaemonState :=
  { active := true, audio_queue := [[1], [2], [3], [4]],
    status := initialState.status }

/- ------------------------------------------------------------------ -/
/- Theorems                                                            -/
/- ------------------------------------------------------------------ -/

/-- C8: processing STOP is idempotent on session state: for every starting
state, two consecutive STOPs leave `active`, `audio_queue`, the published
text and the published error identical to a single STOP. -/
theorem C8_stop_idempotent (s : DaemonState) :
    applyCommand Command.STOP (applyCommand Command.STOP s)
      = applyCommand Command.STOP s := by
  simp [applyCommand, update_status]

/-- C1 (refuting the claimed atomicity): the drain in `transcription_loop`
performs `np.concatenate(list(self.audio_queue))` and `self.audio_queue.clear()`
as two separate steps with no lock held (`self.lock` guards only `update_status`),
and `audio_callback` appends with no lock either; in the interleaving where a
block is delivered between the concatenation and the clear, that block ends up
neither in the batch handed to the engine nor in the queue afterwards — it is
silently destroyed, contradicting the claimed mutual exclusion. -/
theorem C1_unlocked_drain_loses_block :
    (runOps [AudioOp.drainConcat, AudioOp.append [1], AudioOp.drainClear]
        { queue := [[0], [0], [0], [0]], batch := none }).queue = []
  ∧ (runOps [AudioOp.drainConcat, AudioOp.append [1], AudioOp.drainClear]
        { queue := [[0], [0], [0], [0]], batch := none }).batch = some [0, 0, 0, 0]
  ∧ (1 : ℚ) ∉ [(0 : ℚ), 0, 0, 0] := by
  refine ⟨rfl, rfl, by decide⟩

/-- C2 counterexample: the `self.model.transcribe` call in
`transcription_loop` is not wrapped in any `try`/`except`, so an engine error
is not caught: the iteration ends in an escaped exception (terminating the
scheduler thread), not in a continuing loop state. -/
theorem C2_engine_error_escapes :
    transcription_iteration (fun _ => Except.error "transcribe failed") sReady
      = Except.error ("transcribe failed", { sReady with audio_queue := [] }) := by
  norm_num [transcription_iteration, sReady, CHUNK_DURATION]
  exact fun h => absurd h (by simp)

/-- C2 (amended): when the engine invocation raises, the error propagates
uncaught out of `transcription_loop` and terminates the scheduler loop; the
failed batch's audio had already been drained (`audio_queue.clear()` runs
before the `transcribe` call), so it is consumed — dropped, not retried, not
requeued. -/
theorem C2_amended_error_terminates (e : String) (s : DaemonState)
    (hact : s.active = true)
    (hne : s.audio_queue ≠ [])
    (hthr : (s.audio_queue.length : ℚ) * CHUNK_DURATION ≥ 2) :
    transcription_iteration (fun _ => Except.error e) s
      = Except.error (e, { s with audio_queue := [] }) := by
  simp [transcription_iteration, hact, hne, hthr]

/-- Witness for C2 (amended) at a concrete ready state. -/
theorem C2_amended_error_terminates_witness :
    transcription_iteration (fun _ => Except.error "boom") sReady
      = Except.error ("boom", { sReady with audio_queue := [] }) :=
  C2_amended_error_terminates "boom" sReady rfl (by simp [sReady])
    (by norm_num [sReady, CHUNK_DURATION])

/-- C3: per-command effects of the accept loop: START sets `active` and
empties the queue; STOP clears `active` and leaves the queue untouched;
TOGGLE inverts `active` and empties the queue; after each command `active`
matches the spec's table, and any command sequence ending in START or TOGGLE
leaves the queue empty. -/
theorem C3_command_state_machine :
    (∀ s : DaemonState, (applyCommand Command.START s).active = true
        ∧ (applyCommand Command.START s).audio_queue = [])
  ∧ (∀ s : DaemonState, (applyCommand Command.STOP s).active = false
        ∧ (applyCommand Command.STOP s).audio_queue = s.audio_queue)
  ∧ (∀ s : DaemonState, (applyCommand Command.TOGGLE s).active = !s.active
        ∧ (applyCommand Command.TOGGLE s).audio_queue = [])
  ∧ (∀ (c : Command) (s : DaemonState),
        (applyCommand c s).active = specTableRecording c s.active)
  ∧ (∀ (cs : List Command) (s : DaemonState),
        (applyCommands (cs ++ [Command.START]) s).audio_queue = []
        ∧ (applyCommands (cs ++ [Command.TOGGLE]) s).audio_queue = []) := by
  refine ⟨fun s => ⟨rfl, rfl⟩, fun s => ⟨rfl, rfl⟩, fun s => ⟨rfl, rfl⟩, ?_, ?_⟩
  · intro c s
    cases c <;> rfl
  · intro cs s
    simp [applyCommands, List.foldl_append, applyCommand]

/-- C4 counterexample: the lowercase token `"start"` arrives on the socket;
its uppercase form is `START`, yet the daemon (which only strips whitespace
and compares exactly) ignores it: no state change, no status publish —
contradicting the claim that the daemon normalizes tokens to uppercase. -/
theorem C4_lowercase_start_ignored :
    handleSocketData "start" initialState = (initialState, [])
      ∧ pyUpper "start" = "START"
      ∧ initialState.active = false := by
  refine ⟨?_, by decide, rfl⟩
  have h : parseCommand "start" = none := by decide
  simp [handleSocketData, h]

/-- C4 (amended): the daemon compares the whitespace-stripped token exactly
and case-sensitively against `START`/`STOP`/`TOGGLE`; any other token
(including lowercase command words) is ignored with no state change and no
status publish.  Case-insensitivity is provided by the client, which sends
`sys.argv[1].upper()`, so a command routed through the client is recognized
regardless of the case the user typed. -/
theorem C4_exact_match_upper_client :
    (∀ (data : String) (s : DaemonState), parseCommand data = none →
        handleSocketData data s = (s, []))
  ∧ (∀ s : DaemonState, handleSocketData "START" s
        = (applyCommand Command.START s, [(applyCommand Command.START s).status]))
  ∧ (∀ s : DaemonState,
        (handleSocketData (clientSentToken "start") s).1 = applyCommand Command.START s
        ∧ (handleSocketData (clientSentToken "stop") s).1 = applyCommand Command.STOP s
        ∧ (handleSocketData (clientSentToken "toggle") s).1 = applyCommand Command.TOGGLE s) := by
  refine ⟨?_, ?_, ?_⟩
  · intro data s h
    simp [handleSocketData, h]
  · intro s
    have h : parseCommand "START" = some Command.START := by decide
    simp [handleSocketData, h]
  · intro s
    have h1 : parseCommand (clientSentToken "start") = some Command.START := by decide
    have h2 : parseCommand (clientSentToken "stop") = some Command.STOP := by decide
    have h3 : parseCommand (clientSentToken "toggle") = some Command.TOGGLE := by decide
    exact ⟨by simp [handleSocketData, h1], by simp [handleSocketData, h2],
           by simp [handleSocketData, h3]⟩

/-- Witness for C4 (amended): an unrecognized token at a concrete state. -/
theorem C4_exact_match_upper_client_witness :
    handleSocketData "banana" initialState = (initialState, []) :=
  C4_exact_match_upper_client.1 "banana" initialState (by decide)

/-- An engine that succeeds with no recognized segments, used to observe the
scheduler's invocation behaviour in isolation. -/
def silentEngine : List Sample → Except String (List String) :=
  fun _ => Except.ok []

/-- C5: the 2.0-second threshold.  From the fresh state, after START and four
0.5 s blocks the iteration performs one engine invocation whose argument is
the in-order concatenation of the four converted blocks and leaves the queue
empty; the following iteration performs no invocation.  After only three
blocks (1.5 s) no invocation happens and the queue keeps its three blocks. -/
theorem C5_two_second_threshold (b1 b2 b3 b4 : RawBlock) :
    (transcription_iteration silentEngine
        (deliverBlocks [b1, b2, b3, b4] (applyCommand Command.START initialState))
      = Except.ok
          { state := { active := true, audio_queue := [],
                       status := (applyCommand Command.START initialState).status },
            invoked := some (convertBlock b1 ++ convertBlock b2
                              ++ convertBlock b3 ++ convertBlock b4),
            typed := none, slept := false })
  ∧ (transcription_iteration silentEngine
        { active := true, audio_queue := [],
          status := (applyCommand Command.START initialState).status }
      = Except.ok
          { state := { active := true, audio_queue := [],
                       status := (applyCommand Command.START initialState).status },
            invoked := none, typed := none, slept := true })
  ∧ (transcription_iteration silentEngine
        (deliverBlocks [b1, b2, b3] (applyCommand Command.START initialState))
      = Except.ok
          { state := deliverBlocks [b1, b2, b3] (applyCommand Command.START initialState),
            invoked := none, typed := none, slept := false })
  ∧ (deliverBlocks [b1, b2, b3] (applyCommand Command.START initialState)).audio_queue.length
      = 3 := by
  refine ⟨?_, ?_, ?_, ?_⟩
  · norm_num [transcription_iteration, silentEngine, deliverBlocks, audio_callback,
      applyCommand, CHUNK_DURATION, pyStrip, String.join]
    simp
  · norm_num [transcription_iteration, silentEngine]
  · norm_num [transcription_iteration, silentEngine, deliverBlocks, audio_callback,
      applyCommand, CHUNK_DURATION]
    simp
  · norm_num [deliverBlocks, audio_callback, applyCommand]

/-- Appending the trailing separator always yields a non-empty string. -/
theorem append_space_ne_empty (t : String) : t ++ " " ≠ "" := by
  intro h
  have hlen := congrArg String.length h
  simp [String.length_append] at hlen
  exact absurd hlen.2 (by decide)

/-- C6: for every engine result, the segment texts are concatenated in order
and stripped; when the stripped text is non-empty the keystroke injector
receives it with a trailing separator and the published text becomes the
stripped text; when it is empty nothing is injected and the published text
is unchanged.  The second conjunct is the `"hello world"` scenario. -/
theorem C6_segment_output (segs : List String) :
    ((transcription_iteration (fun _ => Except.ok segs) sReady).toOption.map
        (fun r => (r.typed, r.state.status.text))
      = some (if pyStrip (String.join segs) = ""
              then (none, sReady.status.text)
              else (some (pyStrip (String.join segs) ++ " "),
                    pyStrip (String.join segs))))
  ∧ (transcription_iteration (fun _ => Except.ok ["hello world"]) sReady).toOption.map
        (fun r => (r.typed, r.state.status.text))
      = some (some "hello world ", "hello world") := by
  constructor
  · by_cases h : pyStrip (String.join segs) = ""
    · norm_num [transcription_iteration, sReady, CHUNK_DURATION, h]
      exact ⟨_, rfl, rfl, rfl⟩
    · norm_num [transcription_iteration, sReady, CHUNK_DURATION, h, type_text,
        update_status, append_space_ne_empty]
      exact ⟨_, rfl, rfl, rfl⟩
  · have h : pyStrip (String.join ["hello world"]) = "hello world" := by decide
    norm_num [transcription_iteration, sReady, CHUNK_DURATION, h, type_text,
      update_status, append_space_ne_empty]
    exact ⟨_, rfl, rfl, rfl⟩

/-- C7: a delivered block is appended (converted) exactly when `active` holds
at delivery time: with `active` set the queue grows by the converted block at
the end; with `active` clear the callback leaves the whole state unchanged,
so any number of deliveries while not recording never changes the queue
length. -/
theorem C7_append_iff_recording :
    (∀ (raw : RawBlock) (s : DaemonState), s.active = true →
        (audio_callback raw s).audio_queue = s.audio_queue ++ [convertBlock raw])
  ∧ (∀ (raw : RawBlock) (s : DaemonState), s.active = false →
        audio_callback raw s = s)
  ∧ (∀ (raws : List RawBlock) (s : DaemonState), s.active = false →
        deliverBlocks raws s = s)
  ∧ (∀ (raws : List RawBlock) (s : DaemonState), s.active = false →
        (deliverBlocks raws s).audio_queue.length = s.audio_queue.length) := by
  have hcb : ∀ (raw : RawBlock) (s : DaemonState), s.active = false →
      audio_callback raw s = s := by
    intro raw s h
    simp [audio_callback, h]
  have hall : ∀ (raws : List RawBlock) (s : DaemonState), s.active = false →
      deliverBlocks raws s = s := by
    intro raws
    induction raws with
    | nil => intro s _; rfl
    | cons b bs ih =>
        intro s h
        have h1 : audio_callback b s = s := hcb b s h
        simp only [deliverBlocks, List.foldl_cons]
        rw [h1]
        exact ih s h
  refine ⟨?_, hcb, hall, ?_⟩
  · intro raw s h
    simp [audio_callback, h]
  · intro raws s h
    rw [hall raws s h]

/-- Witness for C7 at a concrete inactive state. -/
theorem C7_append_iff_recording_witness :
    (deliverBlocks [[5], [6]] initialState).audio_queue.length
      = initialState.audio_queue.length :=
  C7_append_iff_recording.2.2.2 [[5], [6]] initialState rfl

/-- C9 counterexample: on a connection failure the client does exit with
code 1, but the failure message is produced by a bare `print`, which writes
to standard output — nothing is written to the error stream, contradicting
the claimed "message on the error stream". -/
theorem C9_failure_message_on_stdout :
    (send_command (ConnResult.failed "No such file or directory")).exitCode = 1
  ∧ (send_command (ConnResult.failed "No such file or directory")).stderrMsg = none
  ∧ (send_command (ConnResult.failed "No such file or directory")).stdoutMsg
      = some "Failed to connect to daemon: No such file or directory" :=
  ⟨rfl, rfl, rfl⟩

/-- C9 (amended): the client exits with code 0 when the command is
successfully sent, and on connection failure it exits with code 1 after
writing the failure message to standard output; nothing is written to the
error stream. -/
theorem C9_exit_codes (msg : String) :
    (send_command ConnResult.ok).exitCode = 0
  ∧ (send_command ConnResult.ok).stdoutMsg = none
  ∧ (send_command ConnResult.ok).stderrMsg = none
  ∧ (send_command (ConnResult.failed msg)).exitCode = 1
  ∧ (send_command (ConnResult.failed msg)).stdoutMsg
      = some ("Failed to connect to daemon: " ++ msg)
  ∧ (send_command (ConnResult.failed msg)).stderrMsg = none :=
  ⟨rfl, rfl, rfl, rfl, rfl, rfl⟩

/-- Any `update_status` call keeps a non-null error non-null: the error
field is only ever overwritten with `some _`, never reset. -/
theorem update_status_error_ne_none (activeArg : Option Bool)
    (textArg errorArg : Option String) (st : Status) (h : st.error ≠ none) :
    (update_status activeArg textArg errorArg st).error ≠ none := by
  cases errorArg <;> cases textArg <;> cases activeArg <;>
    simp [update_status] <;> exact h

/-- C10: every publish serializes the full three-field snapshot, and a field
whose argument is not supplied retains its previous value; in particular a
STOP publish preserves the last recognized text, and once the error field is
non-null no sequence of further `update_status` calls can reset it to null. -/
theorem C10_snapshot_frame :
    (∀ (activeArg : Option Bool) (st : Status),
        (update_status activeArg none none st).text = st.text
        ∧ (update_status activeArg none none st).error = st.error)
  ∧ (∀ s : DaemonState, (applyCommand Command.STOP s).status.text = s.status.text
        ∧ (applyCommand Command.STOP s).status.error = s.status.error)
  ∧ (∀ (activeArg : Option Bool) (textArg : Option String) (st : Status),
        (update_status activeArg textArg none st).error = st.error)
  ∧ (∀ (us : List (Option Bool × Option String × Option String)) (st : Status),
        st.error ≠ none → (applyUpdates us st).error ≠ none) := by
  refine ⟨?_, ?_, ?_, ?_⟩
  · intro activeArg st
    cases activeArg <;> simp [update_status]
  · intro s
    simp [applyCommand, update_status]
  · intro activeArg textArg st
    cases activeArg <;> cases textArg <;> simp [update_status]
  · intro us
    induction us with
    | nil => intro st h; exact h
    | cons u rest ih =>
        intro st h
        simp only [applyUpdates, List.foldl_cons]
        exact ih _ (update_status_error_ne_none u.1 u.2.1 u.2.2 st h)

/-- Witness for C10 at a concrete status with a recorded error. -/
theorem C10_snapshot_frame_witness :
    (applyUpdates [(some true, none, none), (none, some "hi", none)]
        { active := false, text := "", error := some "boom" }).error ≠ none :=
  C10_snapshot_frame.2.2.2 [(some true, none, none), (none, some "hi", none)]
    { active := false, text := "", error := some "boom" } (by simp)
